import Mathlib

/-!
Verification of the Telegram group-manager bot (src/main.py) against its
natural-language specification.  The decision pipeline, moderation policy,
response trigger policy and digest posting are embedded as pure Lean
functions; transport and generator calls are represented by an explicit
trace of actions, and collaborator outcomes (message deletion, text
generation) are passed in as parameters.
-/

namespace Zcoderk

/-- Python truthiness-based fallback for strings: `a or b` where `a` is an
optional string (a falsy string is the empty one). -/
def pyOrStr (a : Option String) (b : String) : String :=
  match a with
  | some s => if s = "" then b else s
  | none => b

/-- Python `s.lower()`: lowercase every character.  (Defined structurally
over the character list so that concrete instances evaluate.) -/
def lowerStr (s : String) : String :=
  String.mk (s.data.map Char.toLower)

/-- The length of Python `s.strip()`: the character count of `s` without
its leading and trailing whitespace. -/
def strippedLen (s : String) : Nat :=
  ((s.data.dropWhile Char.isWhitespace).reverse.dropWhile Char.isWhitespace).length

/-- Substring containment on character lists: does `pat` occur inside `l`?
Embeds the semantics of the Python operator `pat in s`. -/
def listContainsSub : List Char → List Char → Bool
  | [], pat => pat.isEmpty
  | c :: rest, pat => pat.isPrefixOf (c :: rest) || listContainsSub rest pat

/-- `strIn pat s` is the Python expression `pat in s`. -/
def strIn (pat s : String) : Bool :=
  listContainsSub s.data pat.data

/-- The author of an inbound message (`message.from_user`). -/
structure Author where
  id : Nat
  first_name : String
  username : Option String
  is_bot : Bool
deriving DecidableEq

/-- An inbound chat message as the pipeline reads it: `message.text`,
`message.caption`, `message.chat_id` (compared as a string against the
configured group id), the author, and the optional id of the user whose
message this one replies to (present in the transport data but, as we
prove below, never read by the code). -/
structure InboundMessage where
  text : Option String
  caption : Option String
  chat_id : String
  author : Author
  reply_target : Option Nat
  timestamp : Nat
deriving DecidableEq

/-- `text = message.text or message.caption or ""` from `handle_message`. -/
def effective_text (m : InboundMessage) : String :=
  pyOrStr m.text (pyOrStr m.caption "")

/-- The spam lexicon `inappropriate_patterns` of `is_inappropriate_content`,
verbatim from the source. -/
def inappropriate_patterns : List String :=
  ["http://", "https://", "www.", ".com", "buy now", "click here",
   "free money", "lottery", "casino", "make money fast", "work from home",
   "earn $", "get rich", "bitcoin investment", "crypto investment"]

/-- `question_indicators` of `should_respond`, verbatim from the source. -/
def question_indicators : List String :=
  ["?", "what", "how", "why", "when", "where", "who", "tell me", "explain",
   "help with"]

/-- `greetings` of `should_respond`, verbatim from the source. -/
def greetings : List String :=
  ["hello bot", "hi bot", "hey bot", "good morning bot", "good evening bot"]

/-- `TelegramGroupManager.is_inappropriate_content`: empty text is clean;
otherwise the lowercased text is tested for each spam pattern. -/
def is_inappropriate_content (text : String) : Bool :=
  if text = "" then false
  else inappropriate_patterns.any (fun p => strIn p (lowerStr text))

/-- `TelegramGroupManager.should_respond`: too-short (or empty) text never
triggers; then a bot mention, a question indicator or a bot-directed
greeting each triggers, in that order.  `bot_username` is the manager's
`self.bot_username` (None until the startup handshake; Python also treats
the empty string as unset). -/
def should_respond (bot_username : Option String) (text : String) : Bool :=
  if text = "" ∨ strippedLen text < 5 then false
  else
    let text_lower := lowerStr text
    if (match bot_username with
        | some u => if u = "" then false else strIn ("@" ++ u) text_lower
        | none => false) then true
    else if question_indicators.any (fun q => strIn q text_lower) then true
    else if greetings.any (fun g => strIn g text_lower) then true
    else false

/-- One observable collaborator call made by the engine. -/
inductive Action where
  | deleteMsg
  | sendWarn
  | sendReply (text : String)
  | sendDigest
  | logError
deriving DecidableEq

/-- Whether an action delivers a conversational reply to the chat. -/
def isReplyAction : Action → Bool
  | Action.sendReply _ => true
  | _ => false

/-- The outcome a pipeline invocation terminates with (which branch of
`handle_message` returned). -/
inductive Outcome where
  | ignored
  | moderated
  | responded
deriving DecidableEq

/-- `TelegramGroupManager.handle_inappropriate_content`.  One try block
wraps both transport calls: the deletion is attempted first; when it
succeeds the warning is sent, and when it raises, control jumps to the
except clause, which logs the error — the warning send is skipped.
`delete_ok` is the outcome of the transport's delete call. -/
def handle_inappropriate_content (delete_ok : Bool) : List Action :=
  if delete_ok then [Action.deleteMsg, Action.sendWarn]
  else [Action.deleteMsg, Action.logError]

/-- `TelegramGroupManager.handle_message`, the decision pipeline.
`target_chat` is `GROUP_CHAT_ID`, `bot_username` the manager state,
`delete_ok` the transport outcome of a deletion attempt, and `gen` the
result of `generate_ai_response` (`none` when the generator raised, in
which case the Python function returns None).  The returned `Outcome`
names the branch that terminated the handler, and the list records the
transport calls made. -/
def handle_message (target_chat : String) (bot_username : Option String)
    (delete_ok : Bool) (gen : Option String) (m : InboundMessage) :
    Outcome × List Action :=
  if m.author.is_bot then (Outcome.ignored, [])
  else
    let text := effective_text m
    if m.chat_id ≠ target_chat then (Outcome.ignored, [])
    else if is_inappropriate_content text then
      (Outcome.moderated, handle_inappropriate_content delete_ok)
    else if should_respond bot_username text then
      (Outcome.responded,
        match gen with
        | some r => if r = "" then [] else [Action.sendReply r]
        | none => [])
    else (Outcome.ignored, [])

/-- `TelegramGroupManager.post_daily_news`: `news` is the result of
`get_news_summary` (`none` when generation raised and the function
returned None).  A truthy result is sent to the group; otherwise the
failure is logged. -/
def post_daily_news (news : Option String) : List Action :=
  match news with
  | some n => if n = "" then [Action.logError] else [Action.sendDigest]
  | none => [Action.logError]

/-- A clock reading, split the way the scheduler compares it: a calendar
date (as an abstract day index) and a time of day. -/
structure ClockTime where
  date : Nat
  hour : Nat
  minute : Nat
deriving DecidableEq

/-- Whether `now` is at or after the configured fire time `fh:fm`. -/
def fireTimeReached (fh fm : Nat) (now : ClockTime) : Bool :=
  decide (fh < now.hour ∨ (fh = now.hour ∧ fm ≤ now.minute))

/-- Modelled from the spec: the Daily Trigger Scheduler evaluation step.
The repository delegates firing to an external cron scheduler —
`setup_scheduler` only registers `post_daily_news` under a 9:00 cron
trigger — so the `last_fired_date` state machine of the spec is not in the
source.  Following the spec: on a clock evaluation `now`, fire when `now`
is at or after the fire time `fh:fm` and `last_fired_date` differs from
the current date; the firing runs `post_daily_news` (from the source), and
`last_fired_date` is updated only when the digest was actually sent, so a
generation failure leaves the state unchanged. -/
def evaluate_schedule (fh fm : Nat) (last : Option Nat) (now : ClockTime)
    (news : Option String) : Option Nat × List Action :=
  if last ≠ some now.date ∧ fireTimeReached fh fm now = true then
    let acts := post_daily_news news
    (if acts.contains Action.sendDigest then some now.date else last, acts)
  else (last, [])

/-- A sequence of scheduler evaluations, threading `last_fired_date` and
accumulating the actions. -/
def run_schedule (fh fm : Nat) :
    Option Nat → List (ClockTime × Option String) → Option Nat × List Action
  | last, [] => (last, [])
  | last, (now, news) :: rest =>
    let r := evaluate_schedule fh fm last now news
    let r2 := run_schedule fh fm r.1 rest
    (r2.1, r.2 ++ r2.2)

/-- How many digest sends a trace holds. -/
def digestCount (acts : List Action) : Nat :=
  acts.count Action.sendDigest

/-- A concrete spam message for evaluations: in the target chat "G", from a
human user, with a URL in the text. -/
def mSpam : InboundMessage :=
  { text := some "Check out http://free-money.biz now!!"
    caption := none
    chat_id := "G"
    author := { id := 1, first_name := "Al", username := none, is_bot := false }
    reply_target := none
    timestamp := 0 }

/-- A concrete clean question message in the target chat "G". -/
def mAsk : InboundMessage :=
  { text := some "hello bot, what time is it"
    caption := none
    chat_id := "G"
    author := { id := 2, first_name := "Bea", username := none, is_bot := false }
    reply_target := none
    timestamp := 1 }

/-- A concrete clean message replying to the bot (reply target 42 is the
bot's own id) whose text matches no trigger pattern. -/
def mReply : InboundMessage :=
  { text := some "okay sure thanks"
    caption := none
    chat_id := "G"
    author := { id := 3, first_name := "Cal", username := none, is_bot := false }
    reply_target := some 42
    timestamp := 2 }

/-- A concrete bot-authored spam message outside the target chat. -/
def mBot : InboundMessage :=
  { text := some "free money at http://x.y"
    caption := none
    chat_id := "H"
    author := { id := 99, first_name := "Bot", username := some "other_bot", is_bot := true }
    reply_target := none
    timestamp := 3 }



/-- Every spam pattern is a nonempty string. -/
theorem inappropriate_patterns_nonempty :
    ∀ p ∈ inappropriate_patterns, p ≠ "" := by decide


/-- C7: a message authored by a bot is `Ignored` with no side effects,
whatever its text, chat, reply target or timestamp — the `is_bot` check is
the first thing `handle_message` evaluates, before chat-scope filtering,
moderation and response triggering. -/
theorem bot_author_ignored (target_chat : String) (bot_username : Option String)
    (delete_ok : Bool) (gen : Option String) (m : InboundMessage)
    (hb : m.author.is_bot = true) :
    handle_message target_chat bot_username delete_ok gen m = (Outcome.ignored, []) := by
  simp [handle_message, hb]

/-- Witness for C7: a bot-authored spam message outside the target chat is
ignored with no actions. -/
theorem bot_author_ignored_witness :
    handle_message "G" (some "mybot") true (some "generated") mBot = (Outcome.ignored, []) :=
  bot_author_ignored "G" (some "mybot") true (some "generated") mBot rfl

/-- C8: a non-bot message from any chat other than the configured target
chat is `Ignored`, and no delete, warning or reply action is emitted. -/
theorem out_of_scope_ignored (target_chat : String) (bot_username : Option String)
    (delete_ok : Bool) (gen : Option String) (m : InboundMessage)
    (hb : m.author.is_bot = false) (hc : m.chat_id ≠ target_chat) :
    handle_message target_chat bot_username delete_ok gen m = (Outcome.ignored, []) := by
  simp [handle_message, hb, hc]

/-- Witness for C8: the spam message addressed to chat "G" is ignored with
no actions when the configured target chat is "T". -/
theorem out_of_scope_ignored_witness :
    handle_message "T" (some "mybot") true (some "generated") mSpam = (Outcome.ignored, []) :=
  out_of_scope_ignored "T" (some "mybot") true (some "generated") mSpam rfl (by decide)

/-- C9: any text whose stripped length is below 5 (the threshold in
`should_respond`) yields no response; the length check is the first
check of the trigger policy, so it wins over mention, question and
greeting signals present in the same text. -/
theorem short_text_silent (bot_username : Option String) (text : String)
    (h : strippedLen text < 5) :
    should_respond bot_username text = false := by
  unfold should_respond
  rw [if_pos (Or.inr h)]

/-- Witness for C9: "hi?" is a question-marked text of stripped length 3
and triggers no response. -/
theorem short_text_silent_witness :
    strippedLen "hi?" < 5 ∧ should_respond (some "mybot") "hi?" = false :=
  ⟨by decide, short_text_silent (some "mybot") "hi?" (by decide)⟩

/-- C10: for a fixed bot username, the moderation verdict and the
should-respond verdict are functions of the message text alone: two
messages with equal effective text get equal verdicts, whatever their
author, chat, reply target or timestamp. -/
theorem verdicts_depend_only_on_text (bot_username : Option String)
    (m m' : InboundMessage) (ht : effective_text m = effective_text m') :
    is_inappropriate_content (effective_text m) =
      is_inappropriate_content (effective_text m') ∧
    should_respond bot_username (effective_text m) =
      should_respond bot_username (effective_text m') := by
  rw [ht]
  exact ⟨rfl, rfl⟩

/-- A message with the same text as `mAsk` but a different author, chat,
reply target and timestamp (the author is even a bot). -/
def mAskOther : InboundMessage :=
  { text := some "hello bot, what time is it"
    caption := none
    chat_id := "H"
    author := { id := 50, first_name := "Zed", username := some "zed", is_bot := true }
    reply_target := some 42
    timestamp := 77 }

/-- Witness for C10: `mAsk` and `mAskOther` share their text and differ in
every other field, and both verdicts agree on them. -/
theorem verdicts_depend_only_on_text_witness :
    is_inappropriate_content (effective_text mAsk) =
      is_inappropriate_content (effective_text mAskOther) ∧
    should_respond (some "mybot") (effective_text mAsk) =
      should_respond (some "mybot") (effective_text mAskOther) :=
  verdicts_depend_only_on_text (some "mybot") mAsk mAskOther rfl

/-- C3 counterexample: when the deletion attempt fails, the warning is not
sent — the single try block of `handle_inappropriate_content` jumps to its
except clause, skipping the warning send. -/
theorem delete_failure_skips_warning_cex :
    Action.sendWarn ∉ handle_inappropriate_content false := by
  decide

/-- C3 as amended: the deletion is attempted first and a delete failure is
logged rather than raised, but it aborts the handler, so the warning is
sent only when the deletion succeeded. -/
theorem moderation_delete_then_warn (delete_ok : Bool) :
    handle_inappropriate_content delete_ok =
      if delete_ok then [Action.deleteMsg, Action.sendWarn]
      else [Action.deleteMsg, Action.logError] := by
  cases delete_ok <;> rfl

/-- C4 counterexample: `mReply` is a clean in-scope message replying to
the bot (its reply target, 42, is the bot's own id) whose text matches no
lexical trigger; the pipeline ignores it instead of responding with a
reply-chain verdict. -/
theorem reply_to_bot_not_answered_cex :
    handle_message "G" (some "mybot") true (some "generated") mReply =
      (Outcome.ignored, []) := by
  decide

/-- C4 as amended: the response trigger policy never reads the reply
target — `should_respond` takes only the bot username and the text, so the
pipeline outcome is invariant under any change of `reply_target`, and a
reply to the bot with no other trigger yields no response. -/
theorem reply_target_never_read (target_chat : String) (bot_username : Option String)
    (delete_ok : Bool) (gen : Option String) (m : InboundMessage) (r : Option Nat) :
    handle_message target_chat bot_username delete_ok gen
        { m with reply_target := r } =
      handle_message target_chat bot_username delete_ok gen m := by
  rfl

/-- Helper: a text that matches a spam pattern is nonempty and is flagged
by `is_inappropriate_content`. -/
theorem spam_match_inappropriate (text : String)
    (hs : inappropriate_patterns.any (fun p => strIn p (lowerStr text)) = true) :
    is_inappropriate_content text = true := by
  unfold is_inappropriate_content
  by_cases he : text = ""
  · rw [he] at hs
    exact absurd hs (by decide)
  · rw [if_neg he]
    exact hs

/-- C1: an in-scope, non-bot message whose lowercased text contains a spam
pattern is `Moderated`: the handler runs only the moderation actions, its
result does not depend on the bot username or on any generator result (the
response trigger policy is never consulted), and no reply action is ever
emitted for the message. -/
theorem spam_message_moderated_never_responded (target_chat : String)
    (bot_username bu' : Option String) (delete_ok : Bool) (gen gen' : Option String)
    (m : InboundMessage)
    (hb : m.author.is_bot = false) (hc : m.chat_id = target_chat)
    (hs : inappropriate_patterns.any
      (fun p => strIn p (lowerStr (effective_text m))) = true) :
    (handle_message target_chat bot_username delete_ok gen m).1 = Outcome.moderated ∧
    handle_message target_chat bot_username delete_ok gen m =
      (Outcome.moderated, handle_inappropriate_content delete_ok) ∧
    handle_message target_chat bot_username delete_ok gen m =
      handle_message target_chat bu' delete_ok gen' m ∧
    (handle_message target_chat bot_username delete_ok gen m).2.any isReplyAction = false := by
  have hin : is_inappropriate_content (effective_text m) = true :=
    spam_match_inappropriate _ hs
  have key : ∀ (bu2 : Option String) (g2 : Option String),
      handle_message target_chat bu2 delete_ok g2 m =
        (Outcome.moderated, handle_inappropriate_content delete_ok) := by
    intro bu2 g2
    simp [handle_message, hb, hc, hin]
  refine ⟨by rw [key], key _ _, by rw [key bot_username gen, key bu' gen'], ?_⟩
  rw [key]
  cases delete_ok <;> decide

/-- Witness for C1: the concrete spam message `mSpam` (it contains
"http://") in target chat "G" is moderated, the handler ignores the bot
username and a successful generator result, and emits no reply. -/
theorem spam_message_moderated_never_responded_witness :
    (handle_message "G" (some "mybot") true (some "generated") mSpam).1 = Outcome.moderated ∧
    handle_message "G" (some "mybot") true (some "generated") mSpam =
      (Outcome.moderated, handle_inappropriate_content true) ∧
    handle_message "G" (some "mybot") true (some "generated") mSpam =
      handle_message "G" none true none mSpam ∧
    (handle_message "G" (some "mybot") true (some "generated") mSpam).2.any isReplyAction = false :=
  spam_message_moderated_never_responded "G" (some "mybot") none true
    (some "generated") none mSpam rfl rfl (by decide)

/-- C6: when the trigger policy says to respond but the generator raises
(`gen = none`) or returns an empty text, the handler still terminates in
the responding branch (`Outcome.responded`) while emitting no action at
all: no reply reaches the chat and no error text is surfaced. -/
theorem generator_failure_silent (target_chat : String) (bot_username : Option String)
    (delete_ok : Bool) (gen : Option String) (m : InboundMessage)
    (hb : m.author.is_bot = false) (hc : m.chat_id = target_chat)
    (hclean : is_inappropriate_content (effective_text m) = false)
    (hresp : should_respond bot_username (effective_text m) = true)
    (hg : gen = none ∨ gen = some "") :
    handle_message target_chat bot_username delete_ok gen m = (Outcome.responded, []) := by
  rcases hg with rfl | rfl <;> simp [handle_message, hb, hc, hclean, hresp]

/-- Witness for C6: `mAsk` triggers a response (it greets the bot and asks
a question) and the generator raises; the handler returns the responding
outcome and performs no transport call. -/
theorem generator_failure_silent_witness :
    handle_message "G" (some "mybot") true none mAsk = (Outcome.responded, []) :=
  generator_failure_silent "G" (some "mybot") true none mAsk rfl rfl
    (by decide) (by decide) (Or.inl rfl)

/-- Helper: a firing evaluation with a successful generation sends the
digest and records the date. -/
theorem sched_fire_step (fh fm : Nat) (last : Option Nat) (now : ClockTime)
    (g : String) (hlast : last ≠ some now.date)
    (hf : fireTimeReached fh fm now = true) (hg : g ≠ "") :
    evaluate_schedule fh fm last now (some g) = (some now.date, [Action.sendDigest]) := by
  unfold evaluate_schedule
  rw [if_pos ⟨hlast, hf⟩]
  simp [post_daily_news, hg]

/-- Helper: once `last_fired_date` is the current date, evaluations on
that date do nothing, whatever the clock time or the generator result. -/
theorem sched_no_fire_same_date (fh fm : Nat) (d : Nat)
    (evts : List (ClockTime × Option String))
    (h : ∀ p ∈ evts, (p : ClockTime × Option String).1.date = d) :
    run_schedule fh fm (some d) evts = (some d, []) := by
  induction evts with
  | nil => rfl
  | cons p rest ih =>
    obtain ⟨now, news⟩ := p
    have hd : now.date = d := h (now, news) (List.mem_cons_self _ _)
    have hstep : evaluate_schedule fh fm (some d) now news = (some d, []) := by
      unfold evaluate_schedule
      rw [if_neg]
      intro hcond
      exact hcond.1 (by rw [hd])
    have hrest := ih (fun q hq => h q (List.mem_cons_of_mem _ hq))
    simp [run_schedule, hstep, hrest]

/-- Helper: actions of a run over an appended evaluation list decompose. -/
theorem run_schedule_append (fh fm : Nat) (last : Option Nat)
    (l1 l2 : List (ClockTime × Option String)) :
    run_schedule fh fm last (l1 ++ l2) =
      ((run_schedule fh fm (run_schedule fh fm last l1).1 l2).1,
       (run_schedule fh fm last l1).2 ++
         (run_schedule fh fm (run_schedule fh fm last l1).1 l2).2) := by
  induction l1 generalizing last with
  | nil => simp [run_schedule]
  | cons p rest ih =>
    obtain ⟨now, news⟩ := p
    simp [run_schedule, ih]

/-- C2 (spec-modelled scheduler): over any nonempty run of clock
evaluations that all report the same date at or after the fire time, with
the generator succeeding, exactly one digest send occurs; appending one
more evaluation on a different (next) date at or after the fire time
yields exactly one more send. -/
theorem daily_digest_exactly_once_per_day (fh fm d d' : Nat) (g : String)
    (evts : List (ClockTime × Option String)) (e' : ClockTime)
    (hg : g ≠ "") (hne : evts ≠ [])
    (hall : ∀ p ∈ evts, (p : ClockTime × Option String).1.date = d ∧
      fireTimeReached fh fm p.1 = true ∧ p.2 = some g)
    (hd' : e'.date = d') (hdd : d' ≠ d) (hf' : fireTimeReached fh fm e' = true) :
    digestCount (run_schedule fh fm none evts).2 = 1 ∧
    digestCount (run_schedule fh fm none (evts ++ [(e', some g)])).2 = 2 := by
  obtain ⟨p0, rest, rfl⟩ := List.exists_cons_of_ne_nil hne
  obtain ⟨e0, n0⟩ := p0
  obtain ⟨hd0, hf0, hn0⟩ := hall (e0, n0) (List.mem_cons_self _ _)
  subst hn0
  have h1 : evaluate_schedule fh fm none e0 (some g) =
      (some e0.date, [Action.sendDigest]) :=
    sched_fire_step fh fm none e0 g (by simp) hf0 hg
  rw [show (e0, some g).1.date = e0.date from rfl] at hd0
  rw [hd0] at h1
  have hrest : run_schedule fh fm (some d) rest = (some d, []) :=
    sched_no_fire_same_date fh fm d rest
      (fun q hq => (hall q (List.mem_cons_of_mem _ hq)).1)
  have hfirst : run_schedule fh fm none ((e0, some g) :: rest) =
      (some d, [Action.sendDigest]) := by
    simp [run_schedule, h1, hd0, hrest]
  refine ⟨by rw [hfirst]; rfl, ?_⟩
  have hlast2 : some d ≠ some e'.date := by
    rw [hd']
    intro hcontra
    exact hdd (Option.some.inj hcontra).symm
  have h2 : evaluate_schedule fh fm (some d) e' (some g) =
      (some e'.date, [Action.sendDigest]) :=
    sched_fire_step fh fm (some d) e' g hlast2 hf' hg
  rw [run_schedule_append, hfirst]
  simp [run_schedule, h2, digestCount]

/-- Witness for C2: with fire time 9:00, three evaluations on day 0 at
9:00, 9:05 and 12:30 fire exactly once, and a fourth evaluation on day 1
at 9:00 fires exactly once more. -/
theorem daily_digest_exactly_once_per_day_witness :
    digestCount (run_schedule 9 0 none
      [(⟨0, 9, 0⟩, some "news"), (⟨0, 9, 5⟩, some "news"),
       (⟨0, 12, 30⟩, some "news")]).2 = 1 ∧
    digestCount (run_schedule 9 0 none
      ([(⟨0, 9, 0⟩, some "news"), (⟨0, 9, 5⟩, some "news"),
        (⟨0, 12, 30⟩, some "news")] ++ [(⟨1, 9, 0⟩, some "news")])).2 = 2 :=
  daily_digest_exactly_once_per_day 9 0 0 1 "news"
    [(⟨0, 9, 0⟩, some "news"), (⟨0, 9, 5⟩, some "news"), (⟨0, 12, 30⟩, some "news")]
    ⟨1, 9, 0⟩ (by decide) (by decide) (by decide) rfl (by decide) (by decide)

/-- C5 (spec-modelled scheduler): a firing evaluation whose digest
generation fails sends nothing, logs the failure and leaves
`last_fired_date` unchanged, so a later evaluation on the same date at or
after the fire time retries and, when generation then succeeds, sends the
digest and records the date. -/
theorem digest_generation_failure_retries (fh fm : Nat) (last : Option Nat)
    (now later : ClockTime) (g : String)
    (hlast : last ≠ some now.date) (hf : fireTimeReached fh fm now = true)
    (hsame : later.date = now.date) (hf2 : fireTimeReached fh fm later = true)
    (hg : g ≠ "") :
    evaluate_schedule fh fm last now none = (last, [Action.logError]) ∧
    evaluate_schedule fh fm last later (some g) =
      (some later.date, [Action.sendDigest]) := by
  constructor
  · unfold evaluate_schedule
    rw [if_pos ⟨hlast, hf⟩]
    simp [post_daily_news]
  · exact sched_fire_step fh fm last later g (by rw [hsame]; exact hlast) hf2 hg

/-- Witness for C5: at fire time 9:00 on day 0, a failed generation at
9:00 changes nothing, and the retry at 9:05 with a successful generation
sends the digest and records day 0. -/
theorem digest_generation_failure_retries_witness :
    evaluate_schedule 9 0 none ⟨0, 9, 0⟩ none = (none, [Action.logError]) ∧
    evaluate_schedule 9 0 none ⟨0, 9, 5⟩ (some "news") =
      (some 0, [Action.sendDigest]) :=
  digest_generation_failure_retries 9 0 none ⟨0, 9, 0⟩ ⟨0, 9, 5⟩ "news"
    (by decide) (by decide) rfl (by decide) (by decide)

end Zcoderk
